import Mathlib

/-!
# Verification of the raw extended-query interface of `rust-postgres`

Shallow embedding of `src/tokio-postgres/src/raw/{query,simple_query,statement,portal,describe}.rs`.

Modelling conventions:
* Byte buffers (`BytesMut` / frozen `Bytes`) are `List Nat`, one entry per byte.
* The per-connection `InnerClient` (defined in `client.rs`, which is not part of the
  source tree here) is modelled from the spec (§4.1): it owns the `pending` outbound
  buffer, a `closed` flag (whether the connection task is gone), and the ordered log
  `sent` of frozen batches handed to the connection task.
* `with_buf` / `raw_buf` hand the closure the pending buffer under mutual exclusion;
  a closure that calls `buf.split().freeze()` takes the whole current buffer content
  and leaves the buffer empty.  Both are modelled by the same state transformer, the
  closure returning the new buffer content together with its result.
* The frontend frame codec lives in the `postgres-protocol` crate (also not under the
  source tree); its encoders are modelled from the spec's wire grammar (§6).  Encode
  failures on interior NUL bytes in names are not modelled: the spec grammar defines
  total encodings, and no claim turns on them.
* `Weak<InnerClient>` references held by handles are modelled by a `client : Bool`
  field (whether the handle carries a reference at all) together with an explicit
  `clientAlive` parameter at drop time; the weak upgrade succeeds iff both hold.
* Rust panics in otherwise-total accessors are modelled by an outer `Option`
  (`none` = panic).
-/

set_option autoImplicit false

namespace RawPg

/-- Byte strings (`Bytes` / `BytesMut` content). -/
abbrev ByteSeq := List Nat

/-- Concatenation-map over a list, used for encoding repeated fields. -/
def concatMap {α : Type} (f : α → ByteSeq) : List α → ByteSeq
  | [] => []
  | a :: l => f a ++ concatMap f l

/-- A NUL-terminated string field, as in the spec's wire grammar (`<name\0>`). -/
def cstr (s : ByteSeq) : ByteSeq := s ++ [0]

/-- Big-endian two's-complement 16-bit integer field. -/
def int16 (n : Int) : ByteSeq :=
  let m := (n.emod 65536).toNat
  [m / 256 % 256, m % 256]

/-- Big-endian two's-complement 32-bit integer field. -/
def int32 (n : Int) : ByteSeq :=
  let m := (n.emod 4294967296).toNat
  [m / 16777216 % 256, m / 65536 % 256, m / 256 % 256, m % 256]

/-- Whether a parameter value was serialized as SQL NULL
(`postgres_protocol::IsNull`). -/
inductive IsNull where
  | yes
  | no
deriving DecidableEq, Repr

/-- The length prefix written before one Bind parameter: `-1` when the serializer
reported SQL NULL, otherwise the number of bytes it wrote. -/
def lenPrefix (r : ByteSeq × IsNull) : ByteSeq :=
  match r.2 with
  | IsNull.yes => int32 (-1)
  | IsNull.no => int32 r.1.length

namespace frontend

/-- Modelled from the spec (§6): `Query 'Q' <sql\0>` (`frontend::query` of the
`postgres-protocol` crate, which is not under the source tree). -/
def query (sql : ByteSeq) : ByteSeq := 81 :: cstr sql

/-- Modelled from the spec (§6): `Parse 'P' <name\0> <query\0> <int16 nparams> <int32 oid>*`
(`frontend::parse`). -/
def parse (name q : ByteSeq) (oids : List Nat) : ByteSeq :=
  80 :: (cstr name ++ cstr q ++ int16 oids.length ++ concatMap (fun o => int32 (Int.ofNat o)) oids)

/-- Modelled from the spec (§6): `Close 'C' <'S'|'P'> <name\0>` (`frontend::close`).
The tag is the byte `'S' = 83` for statements, `'P' = 80` for portals. -/
def close (tag : Nat) (name : ByteSeq) : ByteSeq := 67 :: tag :: cstr name

/-- Modelled from the spec (§6): `Sync 'S'` (`frontend::sync`). -/
def sync : ByteSeq := [83]

/-- Modelled from the spec (§6): `Describe 'D' <'S'|'P'> <name\0>` (`frontend::describe`). -/
def describe (tag : Nat) (name : ByteSeq) : ByteSeq := 68 :: tag :: cstr name

/-- Modelled from the spec (§6): `Execute 'E' <portal\0> <int32 max_rows>`
(`frontend::execute`). -/
def execute (portal : ByteSeq) (maxRows : Int) : ByteSeq :=
  69 :: (cstr portal ++ int32 maxRows)

/-- Modelled from the spec (§6):
`Bind 'B' <portal\0> <stmt\0> <int16 nfmt><int16 fmt>* <int16 nparams> (<int32 len or -1> <bytes>)* <int16 nresfmt><int16 resfmt>*`
(`frontend::bind`).  Like the crate function it is generic in the parameter type and
takes a caller-supplied serializer returning the written bytes and an `IsNull` flag;
a parameter whose serializer reports `IsNull.yes` gets length `-1`.  It fails (with
`BindError::Conversion`) when the parameter count does not fit the 16-bit count
prefix. -/
def bind {α : Type} (portal stmt : ByteSeq) (paramFormats : List Int) (params : List α)
    (serializer : α → ByteSeq × IsNull) (resultFormats : List Int) : Option ByteSeq :=
  if params.length < 65536 then
    some (66 :: (cstr portal ++ cstr stmt
      ++ int16 paramFormats.length ++ concatMap int16 paramFormats
      ++ int16 params.length
      ++ concatMap (fun p => lenPrefix (serializer p) ++ (serializer p).1) params
      ++ int16 resultFormats.length ++ concatMap int16 resultFormats))
  else none

end frontend

/-- The error kinds of `tokio-postgres`'s `Error` (`error.rs` is not under the source
tree; modelled from the spec §7). -/
inductive Error where
  | encode
  | io
  | closed
  | unexpectedMessage
  | parse
  | fromSql (idx : Nat)
  | server
deriving DecidableEq, Repr

/-- `Error::is_closed`: whether the error signals that the connection is gone. -/
def Error.is_closed : Error → Bool
  | Error.closed => true
  | _ => false

/-- Modelled from the spec (§4.1): the per-connection `InnerClient` of `client.rs`
(not under the source tree).  `pending` is the outbound buffer awaiting a Sync,
`closed` records whether the connection task is gone (so `send` fails with
`Closed`), and `sent` is the ordered log of frozen batches handed to the
connection task. -/
structure InnerClient where
  pending : ByteSeq
  closed : Bool
  sent : List ByteSeq
deriving DecidableEq, Repr

/-- Modelled from the spec (§4.1): `InnerClient::with_buf` hands the closure the
pending buffer under mutual exclusion; the closure returns the new buffer content
(what `buf.split()` leaves behind, or the grown buffer if it does not split)
together with its result. -/
def InnerClient.with_buf {α : Type} (c : InnerClient) (f : ByteSeq → ByteSeq × α) :
    InnerClient × α :=
  let r := f c.pending
  ({ c with pending := r.1 }, r.2)

/-- Modelled from the spec (§4.1): `InnerClient::raw_buf`, the deferred-batching
variant of `with_buf`; the closure appends frames that stay in `pending` for the
next `sync`.  Operationally identical to `with_buf` in this model. -/
def InnerClient.raw_buf {α : Type} (c : InnerClient) (f : ByteSeq → ByteSeq × α) :
    InnerClient × α :=
  let r := f c.pending
  ({ c with pending := r.1 }, r.2)

/-- Modelled from the spec (§4.1): `InnerClient::send` hands a frozen batch to the
connection task, or fails with `Closed` when the connection is gone. -/
def InnerClient.send (c : InnerClient) (batch : ByteSeq) : InnerClient × Except Error Unit :=
  if c.closed then (c, Except.error Error.closed)
  else ({ c with sent := c.sent ++ [batch] }, Except.ok ())

/-- `Statement` / `StatementInner` of `statement.rs`.  `client : Bool` models
whether the handle carries a `Weak<InnerClient>` reference obtained by
downgrading a live client (`true` for `Statement::new`'s `Arc::downgrade`). -/
structure Statement where
  client : Bool
  name : ByteSeq
  param_types : List Nat
deriving DecidableEq, Repr

/-- `Statement::new` (statement.rs): takes a strong reference to the client and
downgrades it, so the handle carries a client reference. -/
def Statement.new (client : Bool) (name : ByteSeq) (param_types : List Nat) : Statement :=
  { client := client, name := name, param_types := param_types }

/-- `Portal` / `Inner` of `portal.rs`: weak client reference, a strong reference to
the parent statement, and the portal name. -/
structure Portal where
  client : Bool
  statement : Statement
  name : ByteSeq
deriving DecidableEq, Repr

/-- `Portal::new` (portal.rs). -/
def Portal.new (client : Bool) (statement : Statement) (name : ByteSeq) : Portal :=
  { client := client, statement := statement, name := name }

/-- `impl Drop for StatementInner` (statement.rs), run when the last clone of a
`Statement` is dropped.  `clientAlive` says whether the backing `InnerClient` is
still alive; the weak upgrade succeeds iff the handle carries a reference
(`s.client`) and the client is alive.  On upgrade: when the pending buffer is
empty (checked through `raw_buf`), encode Close('S', name) plus a trailing Sync,
split the buffer and send it as its own batch, ignoring send failure; otherwise
append Close('S', name) to the pending buffer for the next Sync. -/
def statementDrop (c : InnerClient) (s : Statement) (clientAlive : Bool) : InnerClient :=
  if s.client && clientAlive then
    let isEmptyCheck := c.raw_buf (fun buf => (buf, buf.isEmpty))
    if isEmptyCheck.2 then
      let r := c.with_buf (fun buf =>
        let buf := buf ++ frontend.close 83 s.name ++ frontend.sync
        ([], buf))
      (r.1.send r.2).1
    else
      (c.raw_buf (fun buf => (buf ++ frontend.close 83 s.name, ()))).1
  else c

/-- `impl Drop for Inner` (portal.rs), run when the last clone of a `Portal` is
dropped.  On successful weak upgrade it unconditionally encodes
Close('P', name) plus Sync into the pending buffer, splits the whole buffer and
sends it, ignoring send failure. -/
def portalDrop (c : InnerClient) (p : Portal) (clientAlive : Bool) : InnerClient :=
  if p.client && clientAlive then
    let r := c.with_buf (fun buf =>
      let buf := buf ++ frontend.close 80 p.name ++ frontend.sync
      ([], buf))
    (r.1.send r.2).1
  else c

/-- `internal_prepare` (query.rs): appends a Parse frame to the pending buffer via
`raw_buf` and returns a new `Statement`.  The source calls
`Statement::new(name.to_string(), types_oid.to_vec())`, omitting the client
argument that `Statement::new` in statement.rs requires; the returned handle
therefore carries no upgradable client reference, modelled as `client := false`. -/
def internal_prepare (c : InnerClient) (q name : ByteSeq) (types_oid : List Nat) :
    InnerClient × Statement :=
  let r := c.raw_buf (fun buf => (buf ++ frontend.parse name q types_oid, ()))
  (r.1, Statement.new false name types_oid)

/-- The parameter serializer closure of `encode_bind` (query.rs): `Some(bytes)`
puts the literal bytes and reports non-null, `None` writes nothing and reports
SQL NULL. -/
def serializeParam : Option ByteSeq → ByteSeq × IsNull
  | some bytes => (bytes, IsNull.no)
  | none => ([], IsNull.yes)

/-- `encode_bind` (query.rs): builds the Bind frame via `frontend::bind` with a
single parameter format code `1`, the `serializeParam` closure, and a single
result format code `1`; a `BindError::Conversion` failure maps to
`Error::unexpected_message`. -/
def encode_bind (statement : Statement) (params : List (Option ByteSeq)) (portal : ByteSeq) :
    Except Error ByteSeq :=
  match frontend.bind portal statement.name [1] params serializeParam [1] with
  | some bs => Except.ok bs
  | none => Except.error Error.unexpectedMessage

/-- `bind` (query.rs): appends the Bind frame to the pending buffer via `raw_buf`
and returns a new `Portal` referencing the client and keeping the statement
alive. -/
def bind (c : InnerClient) (statement : Statement) (name : ByteSeq)
    (params : List (Option ByteSeq)) : InnerClient × Except Error Portal :=
  match encode_bind statement params name with
  | Except.ok frame =>
      ((c.raw_buf (fun buf => (buf ++ frame, ()))).1,
        Except.ok (Portal.new true statement name))
  | Except.error e => (c, Except.error e)

/-- `execute` (query.rs): appends an Execute frame to the pending buffer via
`raw_buf`; does not flush. -/
def execute (c : InnerClient) (portal : Portal) (max_rows : Int) : InnerClient :=
  (c.raw_buf (fun buf => (buf ++ frontend.execute portal.name max_rows, ()))).1

/-- `DescribeTarget` (describe.rs). -/
inductive DescribeTarget where
  | statement (name : ByteSeq)
  | portal (name : ByteSeq)
deriving DecidableEq, Repr

/-- `describe` (describe.rs): appends a Describe frame with tag 'S' or 'P' to the
pending buffer via `raw_buf`; does not flush. -/
def describe (c : InnerClient) (what : DescribeTarget) : InnerClient :=
  match what with
  | DescribeTarget.statement name =>
      (c.raw_buf (fun buf => (buf ++ frontend.describe 83 name, ()))).1
  | DescribeTarget.portal name =>
      (c.raw_buf (fun buf => (buf ++ frontend.describe 80 name, ()))).1

/-- `sync` (query.rs): appends a Sync frame through `with_buf`, splits and freezes
the whole pending buffer, and sends it as one batch; the response channel is
wrapped in a `QueryStream` (represented here by the `Except` result). -/
def sync (c : InnerClient) : InnerClient × Except Error Unit :=
  let r := c.with_buf (fun buf =>
    let buf := buf ++ frontend.sync
    ([], buf))
  r.1.send r.2

/-- `encode` (simple_query.rs): through `with_buf`, appends the Query frame to the
pending buffer and takes the whole buffer via `buf.split().freeze()`. -/
def simpleQueryEncode (c : InnerClient) (q : ByteSeq) : InnerClient × ByteSeq :=
  c.with_buf (fun buf =>
    let buf := buf ++ frontend.query q
    ([], buf))

/-- `internal_simple_query` (simple_query.rs): encodes the Query frame and sends
the frozen batch. -/
def internal_simple_query (c : InnerClient) (q : ByteSeq) : InnerClient × Except Error Unit :=
  let r := simpleQueryEncode c q
  r.1.send r.2

/-! ## DataRow bodies and row views -/

/-- Modelled from the spec (§4.11, glossary): `DataRowBody` of `postgres-protocol`
(not under the source tree).  `count` is the advertised 16-bit column count of the
DataRow message; `storage` holds the payload that follows it: per column a
big-endian `int32` length (negative for SQL NULL) followed by that many data
bytes.  `buffer()` returns `storage`; `ranges()` parses one `Option` range per
column. -/
structure DataRowBody where
  count : Nat
  storage : ByteSeq
deriving DecidableEq, Repr

/-- `DataRowBody::buffer`. -/
def DataRowBody.buffer (b : DataRowBody) : ByteSeq := b.storage

/-- Read a big-endian two's-complement `int32` at `pos`; `none` on unexpected
end of buffer. -/
def readInt32 (l : ByteSeq) (pos : Nat) : Option Int :=
  match l.get? pos, l.get? (pos + 1), l.get? (pos + 2), l.get? (pos + 3) with
  | some b0, some b1, some b2, some b3 =>
      let u := b0 * 16777216 + b1 * 65536 + b2 * 256 + b3
      some (if 2147483648 ≤ u then (u : Int) - 4294967296 else (u : Int))
  | _, _, _, _ => none

/-- Modelled from the spec (§4.11): the loop of `DataRowBody::ranges` — for each of
the remaining `n` columns read the length prefix at `pos`; a negative length is
SQL NULL (a `none` entry), otherwise the entry is the range of the data bytes,
failing (`Error::parse` upstream) on unexpected end of buffer. -/
def rangesLoop (storage : ByteSeq) : Nat → Nat → Option (List (Option (Nat × Nat)))
  | 0, _ => some []
  | n + 1, pos =>
    match readInt32 storage pos with
    | none => none
    | some v =>
      if v < 0 then
        (rangesLoop storage n (pos + 4)).map (fun rs => none :: rs)
      else
        let len := v.toNat
        if pos + 4 + len ≤ storage.length then
          (rangesLoop storage n (pos + 4 + len)).map
            (fun rs => some (pos + 4, pos + 4 + len) :: rs)
        else none

/-- `DataRowBody::ranges().collect()`: all column ranges, or a parse failure. -/
def DataRowBody.ranges (b : DataRowBody) : Option (List (Option (Nat × Nat))) :=
  rangesLoop b.storage b.count 0

/-- The byte slice `l[a..b]`. -/
def slice (l : ByteSeq) (a b : Nat) : ByteSeq := (l.drop a).take (b - a)

/-- `Row` (query.rs): the owned DataRow body plus the parsed column ranges. -/
structure Row where
  body : DataRowBody
  ranges : List (Option (Nat × Nat))
deriving DecidableEq, Repr

/-- `Row::new` (query.rs): parse the ranges once; on malformed input fail with
`Error::parse`. -/
def Row.new (body : DataRowBody) : Except Error Row :=
  match body.ranges with
  | some rs => Except.ok { body := body, ranges := rs }
  | none => Except.error Error.parse

/-- `Row::len` (query.rs). -/
def Row.len (r : Row) : Nat := r.ranges.length

/-- `Row::is_empty` (query.rs). -/
def Row.is_empty (r : Row) : Bool := r.len == 0

/-- `Row::get` (query.rs): `self.ranges[idx]` panics when `idx` is out of range
(outer `none`); a `none` range is SQL NULL (`some none`); otherwise the byte
slice of the body's buffer at that range. -/
def Row.get (r : Row) (idx : Nat) : Option (Option ByteSeq) :=
  match r.ranges.get? idx with
  | none => none
  | some none => some none
  | some (some ab) => some (some (slice r.body.buffer ab.1 ab.2))

/-! ## UTF-8 validation (for `FromSql for &str` on TEXT) -/

/-- Whether a byte is a UTF-8 continuation byte (`0x80..=0xBF`). -/
def utf8Cont (b : Nat) : Bool := 128 ≤ b && b ≤ 191

/-- Modelled from the spec (§4.11): UTF-8 validity of a byte string, as used by the
`postgres-types` `FromSql` implementation for TEXT (not under the source tree),
which decodes the column bytes as UTF-8 text.  Standard table of well-formed
sequences, surrogates and overlong encodings excluded. -/
def utf8Valid : ByteSeq → Bool
  | [] => true
  | b :: rest =>
    if b ≤ 127 then utf8Valid rest
    else if 194 ≤ b && b ≤ 223 then
      match rest with
      | b1 :: r => utf8Cont b1 && utf8Valid r
      | [] => false
    else if b == 224 then
      match rest with
      | b1 :: b2 :: r => (160 ≤ b1 && b1 ≤ 191) && utf8Cont b2 && utf8Valid r
      | _ => false
    else if 225 ≤ b && b ≤ 236 then
      match rest with
      | b1 :: b2 :: r => utf8Cont b1 && utf8Cont b2 && utf8Valid r
      | _ => false
    else if b == 237 then
      match rest with
      | b1 :: b2 :: r => (128 ≤ b1 && b1 ≤ 159) && utf8Cont b2 && utf8Valid r
      | _ => false
    else if 238 ≤ b && b ≤ 239 then
      match rest with
      | b1 :: b2 :: r => utf8Cont b1 && utf8Cont b2 && utf8Valid r
      | _ => false
    else if b == 240 then
      match rest with
      | b1 :: b2 :: b3 :: r => (144 ≤ b1 && b1 ≤ 191) && utf8Cont b2 && utf8Cont b3 && utf8Valid r
      | _ => false
    else if 241 ≤ b && b ≤ 243 then
      match rest with
      | b1 :: b2 :: b3 :: r => utf8Cont b1 && utf8Cont b2 && utf8Cont b3 && utf8Valid r
      | _ => false
    else if b == 244 then
      match rest with
      | b1 :: b2 :: b3 :: r => (128 ≤ b1 && b1 ≤ 143) && utf8Cont b2 && utf8Cont b3 && utf8Valid r
      | _ => false
    else false
termination_by l => l.length

/-- Modelled from the spec (§4.11): `FromSql::from_sql_nullable(&Type::TEXT, buf)`
from `postgres-types` (not under the source tree) — decodes the byte slice as
UTF-8 text, `Ok(None)` for SQL NULL, `Error::from_sql(e, idx)` on invalid
UTF-8. -/
def from_sql_nullable_text (buf : Option ByteSeq) (idx : Nat) : Except Error (Option ByteSeq) :=
  match buf with
  | none => Except.ok none
  | some bs => if utf8Valid bs then Except.ok (some bs) else Except.error (Error.fromSql idx)

/-- `SimpleQueryRow` (simple_query.rs). -/
structure SimpleQueryRow where
  body : DataRowBody
  ranges : List (Option (Nat × Nat))
deriving DecidableEq, Repr

/-- `SimpleQueryRow::new` (simple_query.rs). -/
def SimpleQueryRow.new (body : DataRowBody) : Except Error SimpleQueryRow :=
  match body.ranges with
  | some rs => Except.ok { body := body, ranges := rs }
  | none => Except.error Error.parse

/-- `SimpleQueryRow::len` (simple_query.rs). -/
def SimpleQueryRow.len (r : SimpleQueryRow) : Nat := r.ranges.length

/-- `SimpleQueryRow::is_empty` (simple_query.rs). -/
def SimpleQueryRow.is_empty (r : SimpleQueryRow) : Bool := r.len == 0

/-- `SimpleQueryRow::try_get` (simple_query.rs): `self.ranges[idx]` panics when
`idx` is out of range (outer `none`); otherwise the optional slice of the body's
buffer is decoded as nullable TEXT. -/
def SimpleQueryRow.try_get (r : SimpleQueryRow) (idx : Nat) :
    Option (Except Error (Option ByteSeq)) :=
  match r.ranges.get? idx with
  | none => none
  | some orange =>
      let buf := orange.map (fun ab => slice r.body.buffer ab.1 ab.2)
      some (from_sql_nullable_text buf idx)

/-! ## Backend messages and response streams -/

/-- Modelled from the spec (§6): the backend `Message` kinds of
`postgres-protocol` (not under the source tree).  Only `dataRow` carries the
payload a claim needs; the other payloads are irrelevant to the stream
whitelists and omitted. -/
inductive Message where
  | authenticationOk
  | backendKeyData
  | bindComplete
  | closeComplete
  | commandComplete
  | copyData
  | copyDone
  | copyInResponse
  | copyOutResponse
  | dataRow (body : DataRowBody)
  | emptyQueryResponse
  | errorResponse
  | noData
  | noticeResponse
  | notificationResponse
  | parameterDescription
  | parameterStatus
  | parseComplete
  | portalSuspended
  | readyForQuery
  | rowDescription
deriving DecidableEq, Repr

/-- One step of a response stream: `Poll::Ready(Some(item))` or
`Poll::Ready(None)` (end of stream).  `Poll::Pending` is not modelled: the
`ready!` macro simply propagates it without touching the state. -/
inductive StreamStep where
  | item (x : Except Error Message)
  | done
deriving Repr

/-- `impl Stream for QueryStream`, `poll_next` (query.rs): the match over one
result polled from the response channel. -/
def QueryStream.poll_next (message : Except Error Message) : StreamStep :=
  match message with
  | Except.ok (Message.dataRow b) => StreamStep.item (Except.ok (Message.dataRow b))
  | Except.ok Message.parseComplete => StreamStep.item (Except.ok Message.parseComplete)
  | Except.ok Message.bindComplete => StreamStep.item (Except.ok Message.bindComplete)
  | Except.ok Message.parameterDescription =>
      StreamStep.item (Except.ok Message.parameterDescription)
  | Except.ok Message.rowDescription => StreamStep.item (Except.ok Message.rowDescription)
  | Except.ok Message.emptyQueryResponse => StreamStep.item (Except.ok Message.emptyQueryResponse)
  | Except.ok Message.commandComplete => StreamStep.item (Except.ok Message.commandComplete)
  | Except.ok Message.portalSuspended => StreamStep.item (Except.ok Message.portalSuspended)
  | Except.ok Message.readyForQuery => StreamStep.item (Except.ok Message.readyForQuery)
  | Except.ok Message.noData => StreamStep.item (Except.ok Message.noData)
  | Except.ok Message.errorResponse => StreamStep.item (Except.ok Message.errorResponse)
  | Except.error e =>
      if e.is_closed then StreamStep.done else StreamStep.item (Except.error e)
  | _ => StreamStep.item (Except.error Error.unexpectedMessage)

/-- `impl Stream for SimpleQueryStream`, `poll_next` (simple_query.rs). -/
def SimpleQueryStream.poll_next (message : Except Error Message) : StreamStep :=
  match message with
  | Except.ok Message.commandComplete => StreamStep.item (Except.ok Message.commandComplete)
  | Except.ok Message.rowDescription => StreamStep.item (Except.ok Message.rowDescription)
  | Except.ok (Message.dataRow b) => StreamStep.item (Except.ok (Message.dataRow b))
  | Except.ok Message.readyForQuery => StreamStep.item (Except.ok Message.readyForQuery)
  | Except.ok Message.emptyQueryResponse => StreamStep.item (Except.ok Message.emptyQueryResponse)
  | Except.ok Message.errorResponse => StreamStep.item (Except.ok Message.errorResponse)
  | Except.error e =>
      if e.is_closed then StreamStep.done else StreamStep.item (Except.error e)
  | _ => StreamStep.item (Except.error Error.unexpectedMessage)

/-- The whitelist of claim C6 for `QueryStream`, stated in the claim's own words:
DataRow, ParseComplete, BindComplete, ParameterDescription, RowDescription,
NoData, EmptyQueryResponse, CommandComplete, PortalSuspended, ReadyForQuery,
ErrorResponse. -/
def queryWhitelisted : Message → Bool
  | Message.dataRow _ => true
  | Message.parseComplete => true
  | Message.bindComplete => true
  | Message.parameterDescription => true
  | Message.rowDescription => true
  | Message.noData => true
  | Message.emptyQueryResponse => true
  | Message.commandComplete => true
  | Message.portalSuspended => true
  | Message.readyForQuery => true
  | Message.errorResponse => true
  | _ => false

/-- The whitelist of claim C6 for `SimpleQueryStream`: CommandComplete,
RowDescription, DataRow, ReadyForQuery, EmptyQueryResponse, ErrorResponse. -/
def simpleWhitelisted : Message → Bool
  | Message.commandComplete => true
  | Message.rowDescription => true
  | Message.dataRow _ => true
  | Message.readyForQuery => true
  | Message.emptyQueryResponse => true
  | Message.errorResponse => true
  | _ => false

/-- One Bind parameter exactly as the spec's words describe it (§4.5, §6): a
`Some(bytes)` parameter is its literal byte slice with its length (non-null), a
`None` parameter is the SQL NULL marker `-1`. -/
def encodeParamSpec : Option ByteSeq → ByteSeq
  | none => int32 (-1)
  | some bs => int32 bs.length ++ bs

/-- The Bind frame exactly as the spec's words describe it (§4.5, §6), for the
refinement claim C10: portal and statement names, a single parameter format code
`1`, the 16-bit parameter count, each parameter per `encodeParamSpec`, then a
single result format code `1`. -/
def bindFrameSpec (portal stmt : ByteSeq) (params : List (Option ByteSeq)) : ByteSeq :=
  66 :: (cstr portal ++ cstr stmt
    ++ int16 1 ++ int16 1
    ++ int16 params.length
    ++ concatMap encodeParamSpec params
    ++ int16 1 ++ int16 1)

/-! ## Concrete states used as inputs for witnesses and counterexamples -/

/-- A fresh client: empty pending buffer, connection alive, nothing sent. -/
def emptyClient : InnerClient := { pending := [], closed := false, sent := [] }

/-- A client whose pending buffer holds one frame left by an extended-query
operation: `describe(Statement "t")` on a fresh client. -/
def exClientPending : InnerClient := describe emptyClient (DescribeTarget.statement [116])

/-- The SQL text `"SELECT 1"` as bytes. -/
def exQuery : ByteSeq := [83, 69, 76, 69, 67, 84, 32, 49]

/-- The SQL text `"DELETE FROM t"` as bytes (it contains no byte 67 = `'C'`). -/
def exQueryNoC : ByteSeq := [68, 69, 76, 69, 84, 69, 32, 70, 82, 79, 77, 32, 116]

/-- A statement handle named `"s"` that carries a live client reference. -/
def exStatement : Statement := Statement.new true [115] []

/-- A portal handle named `"p"` over `exStatement`. -/
def exPortal : Portal := Portal.new true exStatement [112]

/-- `internal_prepare` of `"DELETE FROM t"` under the name `"s"` on a fresh
client: the buffered Parse frame and the returned statement handle. -/
def c3Prep : InnerClient × Statement := internal_prepare emptyClient exQueryNoC [115] []

/-- A one-column `SimpleQueryRow` whose single column is SQL NULL. -/
def c8Row : SimpleQueryRow :=
  { body := { count := 1, storage := [255, 255, 255, 255] }, ranges := [none] }

/-- A DataRow body advertising two columns: a 1-byte value `[65]` and a SQL
NULL. -/
def c9Body : DataRowBody := { count := 2, storage := [0, 0, 0, 1, 65, 255, 255, 255, 255] }

/-- The row parsed from `c9Body`. -/
def c9Row : Row := { body := c9Body, ranges := [some (4, 5), none] }

/-! ## Claim C1 -/

/-- Claim C1, counterexample: on a client whose pending buffer holds a Describe
frame, `internal_simple_query` does **not** dispatch a batch consisting solely of
the encoded Query frame with the pending buffer untouched — the split of
`with_buf` sweeps the pending frame into the batch and empties the buffer. -/
theorem claim_C1_counterexample :
    ¬ ((internal_simple_query exClientPending exQuery).1.sent = [frontend.query exQuery] ∧
       (internal_simple_query exClientPending exQuery).1.pending = exClientPending.pending) := by
  decide

/-- Claim C1 as amended: on a live connection, `simple_query` dispatches one batch
equal to the previous pending-buffer content followed by the encoded Query frame,
and leaves the pending buffer empty. -/
theorem claim_C1_amended (c : InnerClient) (q : ByteSeq) (h : c.closed = false) :
    (internal_simple_query c q).1.sent = c.sent ++ [c.pending ++ frontend.query q] ∧
    (internal_simple_query c q).1.pending = [] ∧
    (internal_simple_query c q).2 = Except.ok () := by
  simp [internal_simple_query, simpleQueryEncode, InnerClient.with_buf, InnerClient.send, h]

/-- Claim C1 amended, witness at the concrete pending state. -/
theorem claim_C1_witness :
    (internal_simple_query exClientPending exQuery).1.sent =
      exClientPending.sent ++ [exClientPending.pending ++ frontend.query exQuery] ∧
    (internal_simple_query exClientPending exQuery).1.pending = [] ∧
    (internal_simple_query exClientPending exQuery).2 = Except.ok () :=
  claim_C1_amended exClientPending exQuery (by decide)

/-! ## Claim C2 -/

/-- Claim C2, counterexample: with a non-empty pending buffer, dropping the last
owner of a Portal does **not** merely append Close('P', name) to the pending
buffer — portal drop is unconditional, dispatching the whole buffer plus
Close('P') and Sync as a batch. -/
theorem claim_C2_counterexample :
    ¬ ((portalDrop exClientPending exPortal true).pending =
         exClientPending.pending ++ frontend.close 80 exPortal.name ∧
       (portalDrop exClientPending exPortal true).sent = exClientPending.sent) := by
  decide

/-- Claim C2 as amended: when the last owner of a Portal is dropped and the weak
client reference upgrades, the drop unconditionally encodes Close('P', name) plus
a Sync after whatever is pending, dispatches the whole buffer as an immediate
batch (send failure ignored), and leaves the pending buffer empty. -/
theorem claim_C2_amended (c : InnerClient) (p : Portal) (h : p.client = true) :
    (c.closed = false →
      (portalDrop c p true).sent =
        c.sent ++ [c.pending ++ frontend.close 80 p.name ++ frontend.sync]) ∧
    (c.closed = true → (portalDrop c p true).sent = c.sent) ∧
    (portalDrop c p true).pending = [] := by
  cases hc : c.closed <;>
    simp [portalDrop, h, InnerClient.with_buf, InnerClient.send, hc]

/-- Claim C2 amended, witness at the concrete pending state. -/
theorem claim_C2_witness :
    (portalDrop exClientPending exPortal true).sent =
      exClientPending.sent ++
        [exClientPending.pending ++ frontend.close 80 exPortal.name ++ frontend.sync] :=
  (claim_C2_amended exClientPending exPortal (by decide)).1 (by decide)

/-! ## Claim C4 -/

/-- Claim C4: on destruction of the last owner of a Statement whose weak client
reference upgrades successfully: if the pending buffer is empty, Close('S', name)
followed by a Sync frame is encoded and dispatched as its own batch with any send
failure ignored; otherwise Close('S', name) is appended to the pending buffer
with no Sync and no dispatch. -/
theorem claim_C4 (c : InnerClient) (s : Statement) (h : s.client = true) :
    (c.pending = [] → c.closed = false →
      (statementDrop c s true).sent = c.sent ++ [frontend.close 83 s.name ++ frontend.sync] ∧
      (statementDrop c s true).pending = []) ∧
    (c.pending = [] → c.closed = true →
      (statementDrop c s true).sent = c.sent ∧ (statementDrop c s true).pending = []) ∧
    (c.pending ≠ [] →
      (statementDrop c s true).pending = c.pending ++ frontend.close 83 s.name ∧
      (statementDrop c s true).sent = c.sent) := by
  refine ⟨fun h1 h2 => ?_, fun h1 h2 => ?_, fun h1 => ?_⟩
  · simp [statementDrop, h, InnerClient.raw_buf, InnerClient.with_buf, InnerClient.send, h1, h2]
  · simp [statementDrop, h, InnerClient.raw_buf, InnerClient.with_buf, InnerClient.send, h1, h2]
  · cases hp : c.pending with
    | nil => exact absurd hp h1
    | cons b rest =>
        simp [statementDrop, h, InnerClient.raw_buf, InnerClient.with_buf, InnerClient.send, hp]

/-- Claim C4, witness: the empty-buffer branch on a fresh client and the
non-empty branch on a client with one pending frame. -/
theorem claim_C4_witness :
    ((statementDrop emptyClient exStatement true).sent =
        emptyClient.sent ++ [frontend.close 83 exStatement.name ++ frontend.sync] ∧
      (statementDrop emptyClient exStatement true).pending = []) ∧
    ((statementDrop exClientPending exStatement true).pending =
        exClientPending.pending ++ frontend.close 83 exStatement.name ∧
      (statementDrop exClientPending exStatement true).sent = exClientPending.sent) :=
  ⟨(claim_C4 emptyClient exStatement (by decide)).1 (by decide) (by decide),
   (claim_C4 exClientPending exStatement (by decide)).2.2 (by decide)⟩

/-! ## Claim C5 -/

/-- Claim C5: on a live connection, `sync` appends a Sync frame, dispatches one
batch equal to the concatenation of all frames appended to the pending buffer
since the previous flush followed by the Sync frame, and leaves the pending
buffer empty after it returns. -/
theorem claim_C5 (c : InnerClient) (h : c.closed = false) :
    (sync c).1.sent = c.sent ++ [c.pending ++ frontend.sync] ∧
    (sync c).1.pending = [] ∧
    (sync c).2 = Except.ok () := by
  simp [sync, InnerClient.with_buf, InnerClient.send, h]

/-- Claim C5, witness at the concrete pending state. -/
theorem claim_C5_witness :
    (sync exClientPending).1.sent =
      exClientPending.sent ++ [exClientPending.pending ++ frontend.sync] ∧
    (sync exClientPending).1.pending = [] ∧
    (sync exClientPending).2 = Except.ok () :=
  claim_C5 exClientPending (by decide)

/-! ## Claim C3 -/

/-- Claim C3: the claim says that dropping all clones of a Statement obtained
from `prepare` while the client is alive puts a Close('S', name) frame on the
wire.  The code contradicts it: `internal_prepare` constructs the Statement
without the client argument required by `Statement::new`, so the handle carries
no upgradable client reference; its drop is a no-op even with the client alive,
and the next `sync` ships a batch containing no Close frame at all — the byte
67 = `'C'`, the tag that starts every Close frame, appears nowhere in any
dispatched batch nor in the pending buffer. -/
theorem claim_C3_code_bug :
    c3Prep.2.client = false ∧
    statementDrop c3Prep.1 c3Prep.2 true = c3Prep.1 ∧
    (∀ b ∈ (sync (statementDrop c3Prep.1 c3Prep.2 true)).1.sent, 67 ∉ b) ∧
    (sync (statementDrop c3Prep.1 c3Prep.2 true)).1.pending = [] := by
  decide

/-! ## Claim C6 -/

/-- Claim C6: for every backend message pulled from the response channel,
`QueryStream` yields it as a data item iff it is in the eleven-message
whitelist and otherwise yields an `UnexpectedMessage` error item; and
`SimpleQueryStream` does the same for its six-message subset. -/
theorem claim_C6 (m : Message) :
    (QueryStream.poll_next (Except.ok m) = StreamStep.item (Except.ok m) ↔
      queryWhitelisted m = true) ∧
    (queryWhitelisted m = false →
      QueryStream.poll_next (Except.ok m) = StreamStep.item (Except.error Error.unexpectedMessage)) ∧
    (SimpleQueryStream.poll_next (Except.ok m) = StreamStep.item (Except.ok m) ↔
      simpleWhitelisted m = true) ∧
    (simpleWhitelisted m = false →
      SimpleQueryStream.poll_next (Except.ok m) =
        StreamStep.item (Except.error Error.unexpectedMessage)) := by
  cases m <;>
    simp [QueryStream.poll_next, SimpleQueryStream.poll_next, queryWhitelisted, simpleWhitelisted]

/-- Claim C6, witness: a ParameterStatus message is outside the QueryStream
whitelist and a ParseComplete message is outside the SimpleQueryStream
whitelist; both surface as `UnexpectedMessage` error items. -/
theorem claim_C6_witness :
    QueryStream.poll_next (Except.ok Message.parameterStatus) =
      StreamStep.item (Except.error Error.unexpectedMessage) ∧
    SimpleQueryStream.poll_next (Except.ok Message.parseComplete) =
      StreamStep.item (Except.error Error.unexpectedMessage) :=
  ⟨(claim_C6 Message.parameterStatus).2.1 rfl, (claim_C6 Message.parseComplete).2.2.2 rfl⟩

/-! ## Claim C7 -/

/-- Claim C7: a channel error for which `is_closed` holds ends the stream; any
other channel error is yielded as a single error item; and an ErrorResponse
backend message is yielded as an ordinary data item, not as a stream error —
for both stream kinds. -/
theorem claim_C7 (e : Error) :
    (e.is_closed = true →
      QueryStream.poll_next (Except.error e) = StreamStep.done ∧
      SimpleQueryStream.poll_next (Except.error e) = StreamStep.done) ∧
    (e.is_closed = false →
      QueryStream.poll_next (Except.error e) = StreamStep.item (Except.error e) ∧
      SimpleQueryStream.poll_next (Except.error e) = StreamStep.item (Except.error e)) ∧
    (QueryStream.poll_next (Except.ok Message.errorResponse) =
        StreamStep.item (Except.ok Message.errorResponse) ∧
      SimpleQueryStream.poll_next (Except.ok Message.errorResponse) =
        StreamStep.item (Except.ok Message.errorResponse)) := by
  refine ⟨fun h => ?_, fun h => ?_, ⟨rfl, rfl⟩⟩ <;>
    simp [QueryStream.poll_next, SimpleQueryStream.poll_next, h]

/-- Claim C7, witness: the `Closed` channel error ends both streams. -/
theorem claim_C7_witness :
    QueryStream.poll_next (Except.error Error.closed) = StreamStep.done ∧
    SimpleQueryStream.poll_next (Except.error Error.closed) = StreamStep.done :=
  (claim_C7 Error.closed).1 rfl

/-! ## Claim C8 -/

/-- Claim C8, counterexample: `SimpleQueryRow::new` succeeds on a zero-column
DataRow body, and `try_get 0` on the resulting row panics (the `self.ranges[idx]`
indexing; the panic is the outer `none`), contradicting the claim that
`try_get(idx)` returns a `Result` value and does not panic for every index. -/
theorem claim_C8_counterexample :
    SimpleQueryRow.new { count := 0, storage := [] } =
      Except.ok { body := { count := 0, storage := [] }, ranges := [] } ∧
    SimpleQueryRow.try_get { body := { count := 0, storage := [] }, ranges := [] } 0 = none :=
  ⟨rfl, rfl⟩

/-- Claim C8 as amended: `SimpleQueryRow::try_get(idx)` returns a `Result` value
(no panic) exactly for `idx < len()`; for `idx ≥ len()` it panics, like
out-of-range `Row::get`. -/
theorem claim_C8_amended (r : SimpleQueryRow) (idx : Nat) :
    (idx < r.len → (r.try_get idx).isSome = true) ∧
    (r.len ≤ idx → r.try_get idx = none) := by
  constructor
  · intro h
    simp only [SimpleQueryRow.len] at h
    rcases hg : r.ranges.get? idx with _ | orange
    · rw [List.get?_eq_none] at hg
      omega
    · simp only [SimpleQueryRow.try_get]
      rw [hg]
      simp
  · intro h
    have hg : r.ranges.get? idx = none := by
      rw [List.get?_eq_none]
      exact h
    simp only [SimpleQueryRow.try_get]
    rw [hg]

/-- Claim C8 amended, witness: on a one-column row, index 0 yields a `Result`
and index 1 panics. -/
theorem claim_C8_witness :
    (c8Row.try_get 0).isSome = true ∧ c8Row.try_get 1 = none :=
  ⟨(claim_C8_amended c8Row 0).1 (by decide), (claim_C8_amended c8Row 1).2 (by decide)⟩

/-! ## Claim C9 -/

/-- The range parser of a DataRow body yields exactly one entry per remaining
column, and every non-NULL entry is an ordered range bounded by the storage
length. -/
theorem rangesLoop_spec (storage : ByteSeq) :
    ∀ (n pos : Nat) (rs : List (Option (Nat × Nat))),
      rangesLoop storage n pos = some rs →
      rs.length = n ∧ ∀ a b, some (a, b) ∈ rs → a ≤ b ∧ b ≤ storage.length := by
  intro n
  induction n with
  | zero =>
    intro pos rs h
    simp only [rangesLoop, Option.some.injEq] at h
    subst h
    simp
  | succ k ih =>
    intro pos rs h
    unfold rangesLoop at h
    rcases hr : readInt32 storage pos with _ | v
    · rw [hr] at h
      exact absurd h (by simp)
    · rw [hr] at h
      dsimp only at h
      by_cases hv : v < 0
      · rw [if_pos hv] at h
        rcases hrec : rangesLoop storage k (pos + 4) with _ | tail
        · rw [hrec] at h
          exact absurd h (by simp)
        · rw [hrec] at h
          simp only [Option.map_some', Option.some.injEq] at h
          subst h
          obtain ⟨hlen, hmem⟩ := ih (pos + 4) tail hrec
          refine ⟨by simp [hlen], fun a b hab => ?_⟩
          rcases List.mem_cons.mp hab with h0 | h0
          · simp at h0
          · exact hmem a b h0
      · rw [if_neg hv] at h
        by_cases hb : pos + 4 + v.toNat ≤ storage.length
        · rw [if_pos hb] at h
          rcases hrec : rangesLoop storage k (pos + 4 + v.toNat) with _ | tail
          · rw [hrec] at h
            exact absurd h (by simp)
          · rw [hrec] at h
            simp only [Option.map_some', Option.some.injEq] at h
            subst h
            obtain ⟨hlen, hmem⟩ := ih (pos + 4 + v.toNat) tail hrec
            refine ⟨by simp [hlen], fun a b hab => ?_⟩
            rcases List.mem_cons.mp hab with h0 | h0
            · simp only [Option.some.injEq, Prod.mk.injEq] at h0
              obtain ⟨ha, hbq⟩ := h0
              subst ha
              subst hbq
              exact ⟨by omega, hb⟩
            · exact hmem a b h0
        · rw [if_neg hb] at h
          exact absurd h (by simp)

/-- Claim C9: for every DataRow body from which `Row::new` succeeds, `len()`
equals the column count advertised by the body, and for every `i < len()`,
`get(i)` is either `None` (SQL NULL) or a byte slice fully contained in the
body's payload. -/
theorem claim_C9 (body : DataRowBody) (r : Row) (h : Row.new body = Except.ok r) :
    r.len = body.count ∧
    ∀ i, i < r.len →
      Row.get r i = some none ∨
      ∃ a b, a ≤ b ∧ b ≤ body.storage.length ∧
        Row.get r i = some (some (slice body.storage a b)) := by
  unfold Row.new at h
  rcases hg : body.ranges with _ | rs
  · rw [hg] at h
    exact absurd h (by simp)
  · rw [hg] at h
    simp only [Except.ok.injEq] at h
    subst h
    obtain ⟨hlen, hmem⟩ := rangesLoop_spec body.storage body.count 0 rs hg
    refine ⟨hlen, fun i hi => ?_⟩
    rcases hgi : rs.get? i with _ | o
    · rw [List.get?_eq_none] at hgi
      simp only [Row.len] at hi
      omega
    · have homem : o ∈ rs := List.get?_mem hgi
      cases o with
      | none =>
        left
        simp only [Row.get]
        rw [hgi]
      | some ab =>
        right
        obtain ⟨a, b⟩ := ab
        obtain ⟨hab, hb⟩ := hmem a b homem
        refine ⟨a, b, hab, hb, ?_⟩
        simp only [Row.get]
        rw [hgi]
        simp [DataRowBody.buffer]

/-- Claim C9, witness: the two-column body `c9Body` parses to a row of length 2
whose column 0 is a slice contained in the payload. -/
theorem claim_C9_witness :
    Row.len c9Row = c9Body.count ∧
    (Row.get c9Row 0 = some none ∨
      ∃ a b, a ≤ b ∧ b ≤ c9Body.storage.length ∧
        Row.get c9Row 0 = some (some (slice c9Body.storage a b))) :=
  ⟨(claim_C9 c9Body c9Row rfl).1, (claim_C9 c9Body c9Row rfl).2 0 (by decide)⟩

/-! ## Claim C10 -/

/-- Pointwise-equal encoding functions concatenate to the same byte string. -/
theorem concatMap_congr {α : Type} (f g : α → ByteSeq) (l : List α) (h : ∀ a, f a = g a) :
    concatMap f l = concatMap g l := by
  induction l with
  | nil => rfl
  | cons a t ih => simp [concatMap, h a, ih]

/-- Claim C10: for every statement, portal name, and parameter list that fits the
16-bit count, the Bind frame built by `encode_bind` is exactly the frame the
spec describes — a single parameter format code `1` applied to every parameter,
each `Some(bytes)` parameter as its literal byte slice (non-null), each `None`
parameter as the SQL NULL marker, and a single result format code `1`. -/
theorem claim_C10 (s : Statement) (portal : ByteSeq) (params : List (Option ByteSeq))
    (h : params.length < 65536) :
    encode_bind s params portal = Except.ok (bindFrameSpec portal s.name params) := by
  have hp : ∀ p : Option ByteSeq,
      lenPrefix (serializeParam p) ++ (serializeParam p).1 = encodeParamSpec p := by
    rintro (_ | bs) <;> simp [lenPrefix, serializeParam, encodeParamSpec]
  simp only [encode_bind, frontend.bind, if_pos h, bindFrameSpec]
  rw [concatMap_congr (fun p => lenPrefix (serializeParam p) ++ (serializeParam p).1)
    encodeParamSpec params hp]
  simp [concatMap]

/-- Claim C10, witness: a two-parameter Bind (one literal value, one SQL NULL)
with parameter count below the 16-bit bound. -/
theorem claim_C10_witness :
    encode_bind exStatement [some [1, 2], none] [112] =
      Except.ok (bindFrameSpec [112] exStatement.name [some [1, 2], none]) :=
  claim_C10 exStatement [112] [some [1, 2], none] (by decide)

end RawPg
